import Mathlib

/-!
Verification of the esp_ml_training pipeline
(feature extraction, imputation, splitting, scaling, training orchestration).

Numeric cells are modelled as `Option ℚ` (`none` = NaN / missing value);
raised Python exceptions are modelled with `Except String`.
-/

/-! ## Generic helpers: median (pandas `Series.median`), mode (pandas `Series.mode`) -/

/-- Insert a rational into a sorted list (ascending). -/
def insertSorted (x : ℚ) : List ℚ → List ℚ
  | [] => [x]
  | y :: ys => if x ≤ y then x :: y :: ys else y :: insertSorted x ys

/-- Insertion sort, ascending. -/
def sortQ (l : List ℚ) : List ℚ := l.foldr insertSorted []

/-- pandas median of a list of (non-missing) rationals: middle element of the
sorted list for odd length, average of the two middle elements for even
length, undefined (`none`) for the empty list. -/
def medianQ (l : List ℚ) : Option ℚ :=
  let s := sortQ l
  let n := s.length
  if n = 0 then none
  else if n % 2 = 1 then s[n / 2]?
  else
    match s[n / 2 - 1]?, s[n / 2]? with
    | some a, some b => some ((a + b) / 2)
    | _, _ => none

/-- pandas median of a column with missing values: missing entries are
ignored; an all-missing column has a missing median. -/
def nanMedian (col : List (Option ℚ)) : Option ℚ :=
  medianQ (col.filterMap id)

/-- First element of pandas `Series.mode()` (most frequent value, smallest
one on ties since pandas returns modes sorted); `none` iff the list is
empty. -/
def modeStr (l : List String) : Option String :=
  l.foldl
    (fun acc s =>
      match acc with
      | none => some s
      | some t =>
        if l.count s > l.count t then some s
        else if l.count s = l.count t ∧ s < t then some s
        else acc)
    none

/-! ## Feature extraction (`feature_engineering/feature_generator.py`) -/

/-- An extracted feature cell: a number, a string, or NaN (the missing
sentinel produced by a defaulted `get_feature`). -/
inductive FVal where
  | num (q : ℚ)
  | str (s : String)
  | nan
  deriving DecidableEq, Repr

/-- The `espInputFeatures` field of a raw record: either a mapping
(Python dict) or something that is not a mapping (`None`, a scalar, ...). -/
inductive EspInput where
  | dict (kvs : List (String × FVal))
  | notDict
  deriving DecidableEq, Repr

/-- Source `get_feature(data, feature_name, default)`: if `data` is not a dict,
return the default; otherwise `data.get(feature_name, default)`. -/
def getFeature (data : EspInput) (featureName : String) (default : FVal) : FVal :=
  match data with
  | .notDict => default
  | .dict kvs =>
    match kvs.lookup featureName with
    | some v => v
    | none => default

/-- The `CORE_TOKENS_PLACEHOLDER` list from the source. -/
def coreTokens : List String := ["WETH_ADDR", "USDC_ADDR", "USDT_ADDR"]

/-- The `A3_initialProfitToGasRatio` derivation: profit divided by
(gas cost + 1e-6), computed from already-defaulted inputs; NaN operands
propagate to NaN exactly as float arithmetic does. -/
def initialProfitToGas (p g : FVal) : FVal :=
  match p, g with
  | .num a, .num b => .num (a / (b + 1 / 1000000))
  | _, _ => .nan

/-- The `A10_tokenIsCore_Token{i}` derivation: 1 if `pathTokenAddress_i`
extracts to a string that is one of the core tokens, else 0. -/
def tokenIsCore (x : EspInput) (i : Nat) : FVal :=
  match getFeature x ("pathTokenAddress_" ++ toString i) .nan with
  | .str t => if t ∈ coreTokens then .num 1 else .num 0
  | _ => .num 0

/-- One row of `generate_features` restricted to the columns derived from
`espInputFeatures` (lines 48-100 of the source), in source order. -/
def extractRow (x : EspInput) : List (String × FVal) :=
  let a1 := getFeature x "estimatedNetProfitUsd_PreEsp" .nan
  let a2 := getFeature x "estimatedGasCostUsd_Initial" .nan
  [ ("A1_estimatedNetProfitUsd_PreEsp", a1)
  , ("A2_estimatedGasCostUsd_Initial", a2)
  , ("A3_initialProfitToGasRatio", initialProfitToGas a1 a2)
  , ("A4_pathLength", getFeature x "pathLength" .nan)
  , ("A5_usesFlashLoan", getFeature x "usesFlashLoan" (.num 0))
  , ("A6_flashLoanAmountUsd", getFeature x "flashLoanAmountUsd" .nan)
  , ("A7_flashLoanFeeUsd_Estimate", getFeature x "flashLoanFeeUsd_Estimate" .nan)
  , ("A8_involvedTokenCount_Unique", getFeature x "involvedTokenCount_Unique" .nan)
  , ("A9_involvedDexCount_Unique", getFeature x "involvedDexCount_Unique" .nan)
  , ("A10_tokenIsCore_Token0", tokenIsCore x 0)
  , ("A10_tokenIsCore_Token1", tokenIsCore x 1)
  , ("A10_tokenIsCore_Token2", tokenIsCore x 2)
  , ("A12_minPathLiquidityUsd", getFeature x "minPathLiquidityUsd" .nan)
  , ("A13_avgPathLiquidityUsd", getFeature x "avgPathLiquidityUsd" .nan)
  , ("A14_isCrossDexArbitrage", getFeature x "isCrossDexArbitrage" (.num 0))
  , ("A15_opportunityAgeMs", getFeature x "opportunityAgeMs" .nan)
  , ("B16_currentBlockNumber", getFeature x "currentBlockNumber" .nan)
  , ("B17_currentBaseFeeGwei", getFeature x "currentBaseFeeGwei" .nan)
  , ("B18_botProposedMaxFeePerGasGwei", getFeature x "botProposedMaxFeePerGasGwei" .nan)
  , ("B19_botProposedMaxPriorityFeePerGasGwei",
      getFeature x "botProposedMaxPriorityFeePerGasGwei" .nan)
  , ("B20_botProposedSlippageToleranceBps_Swap1",
      getFeature x "botProposedSlippageToleranceBps_Swap1" .nan)
  , ("B20_botProposedSlippageToleranceBps_Swap2",
      getFeature x "botProposedSlippageToleranceBps_Swap2" .nan)
  , ("C21_mempool_TotalPendingTxCount", getFeature x "mempool_TotalPendingTxCount" .nan)
  , ("C22_mempool_HighGasTxCount_LastMinute",
      getFeature x "mempool_HighGasTxCount_LastMinute" .nan)
  , ("C23_mempool_TargetPool_PendingTxCount_Swap1",
      getFeature x "mempool_TargetPool_PendingTxCount_Swap1" .nan)
  , ("C24_mempool_TargetPool_PendingVolumeUsd_Swap1",
      getFeature x "mempool_TargetPool_PendingVolumeUsd_Swap1" .nan)
  , ("C23_mempool_TargetPool_PendingTxCount_Swap2",
      getFeature x "mempool_TargetPool_PendingTxCount_Swap2" .nan)
  , ("C24_mempool_TargetPool_PendingVolumeUsd_Swap2",
      getFeature x "mempool_TargetPool_PendingVolumeUsd_Swap2" .nan)
  , ("C25_mempool_AvgPriorityFeeGwei_Recent",
      getFeature x "mempool_AvgPriorityFeeGwei_Recent" .nan)
  , ("C26_mempool_competingMevTxSignatureCount",
      getFeature x "mempool_competingMevTxSignatureCount" .nan)
  , ("C27_timeSinceLastBlockMs", getFeature x "timeSinceLastBlockMs" .nan)
  , ("C28_mempool_gasPriceVolatility_ShortTerm",
      getFeature x "mempool_gasPriceVolatility_ShortTerm" .nan)
  , ("D29_ethPriceUsd_Current", getFeature x "ethPriceUsd_Current" .nan)
  , ("D30_tokenVolatility_StdDevPct_1min_Token0",
      getFeature x "tokenVolatility_StdDevPct_1min_Token0" .nan)
  , ("D31_tokenVolatility_StdDevPct_5min_Token0",
      getFeature x "tokenVolatility_StdDevPct_5min_Token0" .nan)
  , ("D30_tokenVolatility_StdDevPct_1min_Token1",
      getFeature x "tokenVolatility_StdDevPct_1min_Token1" .nan)
  , ("D31_tokenVolatility_StdDevPct_5min_Token1",
      getFeature x "tokenVolatility_StdDevPct_5min_Token1" .nan)
  , ("D30_tokenVolatility_StdDevPct_1min_Token2",
      getFeature x "tokenVolatility_StdDevPct_1min_Token2" .nan)
  , ("D31_tokenVolatility_StdDevPct_5min_Token2",
      getFeature x "tokenVolatility_StdDevPct_5min_Token2" .nan)
  , ("D32_tokenLiquidityDeltaPct_5min_Pool0",
      getFeature x "tokenLiquidityDeltaPct_5min_Pool0" .nan)
  , ("D32_tokenLiquidityDeltaPct_5min_Pool1",
      getFeature x "tokenLiquidityDeltaPct_5min_Pool1" .nan)
  , ("D33_isNewTokenPair_Opportunistic", getFeature x "isNewTokenPair_Opportunistic" (.num 0))
  , ("E34_bot_HistoricalSuccessRate_SamePathSignature_LastHour",
      getFeature x "bot_HistoricalSuccessRate_SamePathSignature_LastHour" .nan)
  , ("E35_bot_HistoricalSuccessRate_SameStrategyType_LastHour",
      getFeature x "bot_HistoricalSuccessRate_SameStrategyType_LastHour" .nan)
  , ("E36_bot_AvgNetProfitUsd_SamePathSignature_Successful_LastDay",
      getFeature x "bot_AvgNetProfitUsd_SamePathSignature_Successful_LastDay" .nan)
  , ("E37_bot_RecentConsecutiveFailures_ThisStrategy",
      getFeature x "bot_RecentConsecutiveFailures_ThisStrategy" .nan)
  , ("E38_bot_RelaySuccessRate_LastHour", getFeature x "bot_RelaySuccessRate_LastHour" .nan)
  ]

/-- The declared default values of the extracted columns, spelled out
explicitly: the NaN missing sentinel for most features, zero for
boolean-style flags (`usesFlashLoan`, the core-token indicators,
`isCrossDexArbitrage`, `isNewTokenPair_Opportunistic`); the derived
profit-to-gas ratio defaults to NaN because the ratio of two NaNs is NaN. -/
def featureDefaults : List (String × FVal) :=
  [ ("A1_estimatedNetProfitUsd_PreEsp", .nan)
  , ("A2_estimatedGasCostUsd_Initial", .nan)
  , ("A3_initialProfitToGasRatio", .nan)
  , ("A4_pathLength", .nan)
  , ("A5_usesFlashLoan", .num 0)
  , ("A6_flashLoanAmountUsd", .nan)
  , ("A7_flashLoanFeeUsd_Estimate", .nan)
  , ("A8_involvedTokenCount_Unique", .nan)
  , ("A9_involvedDexCount_Unique", .nan)
  , ("A10_tokenIsCore_Token0", .num 0)
  , ("A10_tokenIsCore_Token1", .num 0)
  , ("A10_tokenIsCore_Token2", .num 0)
  , ("A12_minPathLiquidityUsd", .nan)
  , ("A13_avgPathLiquidityUsd", .nan)
  , ("A14_isCrossDexArbitrage", .num 0)
  , ("A15_opportunityAgeMs", .nan)
  , ("B16_currentBlockNumber", .nan)
  , ("B17_currentBaseFeeGwei", .nan)
  , ("B18_botProposedMaxFeePerGasGwei", .nan)
  , ("B19_botProposedMaxPriorityFeePerGasGwei", .nan)
  , ("B20_botProposedSlippageToleranceBps_Swap1", .nan)
  , ("B20_botProposedSlippageToleranceBps_Swap2", .nan)
  , ("C21_mempool_TotalPendingTxCount", .nan)
  , ("C22_mempool_HighGasTxCount_LastMinute", .nan)
  , ("C23_mempool_TargetPool_PendingTxCount_Swap1", .nan)
  , ("C24_mempool_TargetPool_PendingVolumeUsd_Swap1", .nan)
  , ("C23_mempool_TargetPool_PendingTxCount_Swap2", .nan)
  , ("C24_mempool_TargetPool_PendingVolumeUsd_Swap2", .nan)
  , ("C25_mempool_AvgPriorityFeeGwei_Recent", .nan)
  , ("C26_mempool_competingMevTxSignatureCount", .nan)
  , ("C27_timeSinceLastBlockMs", .nan)
  , ("C28_mempool_gasPriceVolatility_ShortTerm", .nan)
  , ("D29_ethPriceUsd_Current", .nan)
  , ("D30_tokenVolatility_StdDevPct_1min_Token0", .nan)
  , ("D31_tokenVolatility_StdDevPct_5min_Token0", .nan)
  , ("D30_tokenVolatility_StdDevPct_1min_Token1", .nan)
  , ("D31_tokenVolatility_StdDevPct_5min_Token1", .nan)
  , ("D30_tokenVolatility_StdDevPct_1min_Token2", .nan)
  , ("D31_tokenVolatility_StdDevPct_5min_Token2", .nan)
  , ("D32_tokenLiquidityDeltaPct_5min_Pool0", .nan)
  , ("D32_tokenLiquidityDeltaPct_5min_Pool1", .nan)
  , ("D33_isNewTokenPair_Opportunistic", .num 0)
  , ("E34_bot_HistoricalSuccessRate_SamePathSignature_LastHour", .nan)
  , ("E35_bot_HistoricalSuccessRate_SameStrategyType_LastHour", .nan)
  , ("E36_bot_AvgNetProfitUsd_SamePathSignature_Successful_LastDay", .nan)
  , ("E37_bot_RecentConsecutiveFailures_ThisStrategy", .nan)
  , ("E38_bot_RelaySuccessRate_LastHour", .nan)
  ]

/-! ## Post-assembly imputation (`generate_features`, lines 143-156) -/

/-- Imputation of a numeric column: if any value is missing, every missing
position is filled with the column's median computed ignoring missing
values (`fillna(median)`); a missing median (all-missing column) leaves
the cell missing, exactly as `fillna(NaN)` does. -/
def imputeNumericCol (col : List (Option ℚ)) : List (Option ℚ) :=
  if col.any (fun x => x.isNone) then
    let m := nanMedian col
    col.map (fun x =>
      match x with
      | some v => some v
      | none => m)
  else col

/-- Imputation of a non-numeric column: if any value is missing, every
missing position is filled with the column's mode, or with the literal
placeholder "missing" when the mode is empty (all-missing column). -/
def imputeStringCol (col : List (Option String)) : List (Option String) :=
  if col.any (fun x => x.isNone) then
    let fillVal := (modeStr (col.filterMap id)).getD "missing"
    col.map (fun x =>
      match x with
      | some v => some v
      | none => some fillVal)
  else col

/-! ## Partitioner (`preprocessing/data_preprocessor.py`, `split_data`)

`sklearn.train_test_split` draws a seeded pseudo-random permutation of the
row positions, takes the first `n_test = ceil(test_size * n)` permuted rows
as the test set and the rest as the train set, applying the same
permutation to `X` and `y`.  The Mersenne-Twister permutation is modelled
by a linear-congruential Fisher-Yates shuffle; determinism, partition
structure and sizes do not depend on which seeded permutation is used. -/

/-- Linear congruential step used to derive successive pseudo-random
draws from the seed. -/
def lcg (s : Nat) : Nat := (s * 1103515245 + 12345) % 2147483648

/-- Seeded Fisher-Yates shuffle: repeatedly pick the `g mod length`-th
remaining element. -/
def shuffleSeeded (g : Nat) (l : List α) : List α :=
  match l with
  | [] => []
  | x :: xs =>
    let i := g % (x :: xs).length
    (x :: xs).getD i x :: shuffleSeeded (lcg g) ((x :: xs).eraseIdx i)
termination_by l.length
decreasing_by
  have hp : 0 < (x :: xs).length := by simp
  simp only [List.length_eraseIdx_of_lt (Nat.mod_lt _ hp)]
  simp

/-- The `n_test` count for a float `test_size`: `ceil(test_size * n_samples)`
(sklearn `_validate_shuffle_split`). -/
def nTestOf (testSize : ℚ) (n : Nat) : Nat := (⌈testSize * n⌉).toNat

/-- Source `train_test_split(X, y, test_size, random_state)`: returns
`(X_train, X_test, y_train, y_test)`; the seeded permutation is applied to
the zipped rows so that `X` and `y` stay aligned. -/
def trainTestSplit (X : List α) (y : List β) (testSize : ℚ) (randomState : Nat) :
    List α × List α × List β × List β :=
  let nTest := nTestOf testSize X.length
  let perm := shuffleSeeded randomState (X.zip y)
  let testP := perm.take nTest
  let trainP := perm.drop nTest
  (trainP.map Prod.fst, testP.map Prod.fst, trainP.map Prod.snd, testP.map Prod.snd)

/-- Source `split_data(X, y, test_size, validation_size, random_state)`:
first peel off the test fraction of the whole data, then - when a positive
`validation_size` is given - peel off that fraction of the remaining
train/validation pool (both splits use the same `random_state`).  Returns
`(X_train, X_val, X_test, y_train, y_val, y_test)`; the validation parts
are empty when no validation split is requested. -/
def splitData (X : List α) (y : List β) (testSize : ℚ) (validationSize : Option ℚ)
    (randomState : Nat) :
    List α × List α × List α × List β × List β × List β :=
  let r1 := trainTestSplit X y testSize randomState
  let Xtv := r1.1
  let Xtest := r1.2.1
  let ytv := r1.2.2.1
  let ytest := r1.2.2.2
  match validationSize with
  | some vs =>
    if 0 < vs then
      let r2 := trainTestSplit Xtv ytv vs randomState
      (r2.1, r2.2.1, Xtest, r2.2.2.1, r2.2.2.2, ytest)
    else (Xtv, [], Xtest, ytv, [], ytest)
  | none => (Xtv, [], Xtest, ytv, [], ytest)

/-! ## Scaler (`preprocessing/data_preprocessor.py`, `scale_features`) -/

/-- A DataFrame column: numeric (float) or non-numeric (object/string);
cells may be missing. -/
inductive ColData where
  | numeric (vals : List (Option ℚ))
  | strCol (vals : List (Option String))
  deriving DecidableEq, Repr

/-- A DataFrame: named columns in order. -/
abbrev DataFrame := List (String × ColData)

/-- Whether a column has a numeric dtype (`select_dtypes(include=np.number)`). -/
def isNumericCol : ColData → Bool
  | .numeric _ => true
  | .strCol _ => false

/-- Source `X_train.select_dtypes(include=np.number).columns.tolist()`. -/
def numericColNames (df : DataFrame) : List String :=
  (df.filter (fun c => isNumericCol c.2)).map Prod.fst

/-- The numeric columns of a frame, with their values. -/
def numericColsOf (df : DataFrame) : List (String × List (Option ℚ)) :=
  df.filterMap (fun c =>
    match c.2 with
    | .numeric v => some (c.1, v)
    | .strCol _ => none)

/-- Pre-fit imputation of one training column (source lines 133-140):
an entirely missing column is filled with zero; a column with some (but
not all) missing values is filled with its own median; a complete column
is left as is. -/
def fitImputeCol (col : List (Option ℚ)) : List ℚ :=
  if col.all (fun x => x.isNone) then col.map (fun _ => 0)
  else if col.any (fun x => x.isNone) then
    let m := (nanMedian col).getD 0
    col.map (fun x => x.getD m)
  else col.map (fun x => x.getD 0)

/-- Transform-time fill (source lines 148-154): `.fillna(0)` - every
remaining missing value becomes zero, never the training median. -/
def zeroFillCol (col : List (Option ℚ)) : List ℚ :=
  col.map (fun x => x.getD 0)

/-- Arithmetic mean of a column (sklearn `mean_`). -/
def listMean (l : List ℚ) : ℚ := l.sum / l.length

/-- Population variance of a column (sklearn `var_`, ddof = 0). -/
def listVar (l : List ℚ) : ℚ :=
  (l.map (fun x => (x - listMean l) ^ 2)).sum / l.length

/-- Newton iteration for square roots over ℚ. -/
def sqrtIter (x : ℚ) : Nat → ℚ → ℚ
  | 0, g => g
  | n + 1, g => sqrtIter x n ((g + x / g) / 2)

/-- Rational model of the floating-point square root used by
`StandardScaler` (`scale_ = sqrt(var_)`). -/
def sqrtApprox (x : ℚ) : ℚ :=
  if x ≤ 0 then 0 else sqrtIter x 8 (max x 1)

/-- sklearn `_handle_zeros_in_scale`: a zero scale is replaced by one so
that constant columns are left unscaled instead of dividing by zero. -/
def handleZerosInScale (s : ℚ) : ℚ := if s = 0 then 1 else s

/-- A fitted scaler: `StandardScaler` stores `mean_` and `scale_`
(standard deviation, zeros replaced by one); `MinMaxScaler` stores
`data_min_` and `data_max_`. -/
inductive Scaler where
  | standard (mean scale : List ℚ)
  | minmax (dataMin dataMax : List ℚ)
  deriving DecidableEq, Repr

/-- Source `StandardScaler().fit` on the (already imputed) numeric training
columns, in column order. -/
def fitStandard (cols : List (List ℚ)) : Scaler :=
  .standard (cols.map listMean)
    (cols.map (fun c => handleZerosInScale (sqrtApprox (listVar c))))

/-- Source `MinMaxScaler().fit` on the (already imputed) numeric training
columns, in column order. -/
def fitMinmax (cols : List (List ℚ)) : Scaler :=
  .minmax (cols.map (fun c => (c.min?).getD 0))
    (cols.map (fun c => (c.max?).getD 0))

/-- Source `scaler.transform` on the cell of column `j` (positional, in the order
of the numeric columns the scaler was fitted on). -/
def scalerTransformCell (sc : Scaler) (j : Nat) (x : ℚ) : ℚ :=
  match sc with
  | .standard m s => (x - m.getD j 0) / s.getD j 1
  | .minmax mn mx =>
    (x - mn.getD j 0) / handleZerosInScale (mx.getD j 0 - mn.getD j 0)

/-- Source `df_scaled[numeric_cols] = scaler.transform(df[numeric_cols].fillna(0))`:
each column whose name is among the training numeric columns is
zero-filled and transformed with the parameters at that name's position;
all other columns pass through untouched. -/
def transformFrame (sc : Scaler) (numCols : List String) (df : DataFrame) : DataFrame :=
  df.map (fun c =>
    match c.2 with
    | .numeric vals =>
      match numCols.findIdx? (fun n => n = c.1) with
      | some j =>
        (c.1, .numeric ((zeroFillCol vals).map (fun x => some (scalerTransformCell sc j x))))
      | none => c
    | .strCol _ => c)

/-- Source `scale_features(X_train, X_test, X_val, scaler_type, existing_scaler)`:
returns the scaled frames and the scaler, or raises (models the
`ValueError` for an unknown scaler type).  With no numeric columns,
returns the inputs untouched and no scaler; an existing scaler is used
as is; otherwise a new scaler of the requested type is fitted on the
imputed numeric training columns.  All three frames are transformed with
missing values zero-filled first. -/
def scaleFeatures (Xtrain : DataFrame) (Xtest Xval : Option DataFrame)
    (scalerType : String) (existingScaler : Option Scaler) :
    Except String (DataFrame × Option DataFrame × Option DataFrame × Option Scaler) :=
  let numCols := numericColNames Xtrain
  if numCols.isEmpty then .ok (Xtrain, Xtest, Xval, none)
  else
    let fitted : Except String Scaler :=
      match existingScaler with
      | some sc => .ok sc
      | none =>
        if scalerType = "standard" then
          .ok (fitStandard ((numericColsOf Xtrain).map (fun c => fitImputeCol c.2)))
        else if scalerType = "minmax" then
          .ok (fitMinmax ((numericColsOf Xtrain).map (fun c => fitImputeCol c.2)))
        else .error "scaler_type must be standard or minmax"
    match fitted with
    | .error e => .error e
    | .ok sc =>
      .ok (transformFrame sc numCols Xtrain,
           Xtest.map (transformFrame sc numCols),
           Xval.map (transformFrame sc numCols),
           some sc)

/-! ## Model trainer (`model_training/train.py`, `ModelTrainer.__init__`) -/

/-- The model-type strings `ModelTrainer` supports. -/
def supportedModelTypes : List String := ["neural_network", "xgboost", "lightgbm"]

/-- The constructed trainer state: for a neural network the model is built
at construction only when `input_dim` is already known; the tree backends
construct their model immediately. -/
structure ModelTrainer where
  modelType : String
  modelBuiltAtInit : Bool
  deriving DecidableEq, Repr

/-- Source `ModelTrainer.__init__(model_type, model_params, random_state)`:
an unsupported `model_type` raises `ValueError` at construction time. -/
def initModelTrainer (modelType : String) (inputDimKnown : Bool) :
    Except String ModelTrainer :=
  if modelType = "neural_network" then
    .ok { modelType := modelType, modelBuiltAtInit := inputDimKnown }
  else if modelType = "xgboost" then
    .ok { modelType := modelType, modelBuiltAtInit := true }
  else if modelType = "lightgbm" then
    .ok { modelType := modelType, modelBuiltAtInit := true }
  else
    .error ("Unsupported model_type: " ++ modelType ++
      ". Supported types: neural_network, xgboost, lightgbm")

/-! ## Orchestrator (`main_training_pipeline.py`, `run_pipeline`) -/

/-- A raw ingested record (after `fetch_from_firestore` normalisation):
the execution-outcome fields used for labeling plus the nested feature
map. -/
structure RawRecord where
  executionStatus : Option String
  actualNetProfitLossUsd : Option ℚ
  espInputFeatures : EspInput
  deriving DecidableEq, Repr

/-- Stage-2 labeling: `isSuccess_Execution` is 1 iff the execution status
is `SUCCESS_ON_CHAIN`. -/
def labelExecution (r : RawRecord) : ℚ :=
  if r.executionStatus = some "SUCCESS_ON_CHAIN" then 1 else 0

/-- Stage-2 labeling: `isSuccess_Profitability` is 1 iff the realised
profit is present and exceeds the configured minimum (1 USD). -/
def labelProfitability (r : RawRecord) : ℚ :=
  match r.actualNetProfitLossUsd with
  | some v => if v > 1 then 1 else 0
  | none => 0

/-- Assemble the column-major feature frame from extracted rows: column
names and order come from the first row (every row shares the schema);
numeric cells that extracted to NaN or to a non-number are missing. -/
def buildFrame (rows : List (List (String × FVal))) : DataFrame :=
  match rows with
  | [] => []
  | r0 :: _ =>
    r0.map (fun c =>
      (c.1, ColData.numeric (rows.map (fun r =>
        match r.lookup c.1 with
        | some (.num q) => some q
        | _ => none))))

/-- The post-assembly imputation pass of `generate_features` applied to
every column of a frame. -/
def imputeFrame (df : DataFrame) : DataFrame :=
  df.map (fun c =>
    match c.2 with
    | .numeric v => (c.1, .numeric (imputeNumericCol v))
    | .strCol v => (c.1, .strCol (imputeStringCol v)))

/-- Row selection on a column-major frame (used to materialise the split
partitions). -/
def selectRows (df : DataFrame) (idx : List Nat) : DataFrame :=
  df.map (fun c =>
    match c.2 with
    | .numeric v => (c.1, ColData.numeric (idx.map (fun i => (v[i]?).join)))
    | .strCol v => (c.1, ColData.strCol (idx.map (fun i => (v[i]?).join))))

/-- The scaler-parameter block of the exported metadata (source lines
224-242): the fitted positional parameters are zipped with the numeric
feature names into name-keyed mappings, tagged with the scaler type. -/
def exportScalerMetadata (scaler : Option Scaler) (numericColsScaled : List String) :
    Option (String × List (String × ℚ) × List (String × ℚ)) :=
  match scaler with
  | some (.standard m s) =>
    some ("standard", numericColsScaled.zip m, numericColsScaled.zip s)
  | some (.minmax mn mx) =>
    some ("minmax", numericColsScaled.zip mn, numericColsScaled.zip mx)
  | none => none

/-- The observable outcome of one pipeline run: which stages ran, which
artifacts were written, and the final message. -/
structure PipelineRun where
  stagesRun : List String
  artifactsWritten : List String
  message : String
  deriving DecidableEq, Repr

/-- Source `run_pipeline`, with the external training backend abstracted as a
function argument (its internals are an out-of-scope collaborator).  When
ingestion yields zero records the run halts after stage 1 with a clear
message and nothing is written; otherwise the stages run in sequence and
the model, scaler and metadata artifacts are written at the end. -/
def runPipeline (records : List RawRecord)
    (trainFn : DataFrame → List ℚ → Nat) : PipelineRun :=
  if records.isEmpty then
    { stagesRun := ["ingestion"]
    , artifactsWritten := []
    , message := "No data fetched (mock response was empty). Exiting." }
  else
    let y := records.map labelExecution
    let rows := records.map (fun r => extractRow r.espInputFeatures)
    let featuresDf := imputeFrame (buildFrame rows)
    let n := records.length
    let s1 := splitData (List.range n) y (1 / 5) none 42
    let trainValIdx := s1.1
    let testIdx := s1.2.2.1
    let yTrainVal := s1.2.2.2.1
    let s2 := splitData trainValIdx yTrainVal (1 / 5) none 42
    let trainIdx := s2.1
    let valIdx := s2.2.2.1
    let scaled := scaleFeatures (selectRows featuresDf trainIdx)
      (some (selectRows featuresDf testIdx)) (some (selectRows featuresDf valIdx))
      "standard" none
    match scaled with
    | .error e =>
      { stagesRun := ["ingestion", "labeling", "feature_engineering", "preprocessing"]
      , artifactsWritten := []
      , message := e }
    | .ok r =>
      let handle := trainFn r.1 (s2.2.2.2.1)
      { stagesRun := ["ingestion", "labeling", "feature_engineering", "preprocessing",
          "training", "evaluation", "serialization"]
      , artifactsWritten := ["model_tfjs", "scaler.joblib", "metadata.json"]
      , message := "Pipeline finished, model handle " ++ toString handle }

/-! ## Theorems -/

/-- C5: for every record whose nested feature map is absent entirely
(normalised to an empty dict) or is not a mapping, feature extraction is
total (no exception) and every extracted feature value equals that
feature's declared default: the missing sentinel for most features, zero
for boolean-style flags. -/
theorem extract_defaults_on_missing_map (x : EspInput)
    (h : x = .notDict ∨ x = .dict []) :
    extractRow x = featureDefaults := by
  rcases h with rfl | rfl <;> rfl

/-- Witness for C5 at both concrete degenerate inputs. -/
theorem extract_defaults_on_missing_map_witness :
    extractRow .notDict = featureDefaults ∧ extractRow (.dict []) = featureDefaults :=
  ⟨extract_defaults_on_missing_map .notDict (Or.inl rfl),
   extract_defaults_on_missing_map (.dict []) (Or.inr rfl)⟩

/-- C7: the profit-to-gas ratio is computed from the already-defaulted
profit and gas features as profit divided by (gas cost + 1e-6), with NaN
inputs propagating to NaN; the denominator never equals the raw gas-cost
value, and a zero gas cost yields the nonzero denominator 1e-6, so no
division-by-zero can occur. -/
theorem profit_to_gas_ratio_epsilon :
    (∀ p g : ℚ, initialProfitToGas (.num p) (.num g) = .num (p / (g + 1 / 1000000)))
    ∧ (∀ g : ℚ, g + 1 / 1000000 ≠ g)
    ∧ ((0 : ℚ) + 1 / 1000000 ≠ 0)
    ∧ initialProfitToGas .nan .nan = .nan := by
  refine ⟨fun p g => rfl, fun g => ?_, by norm_num, rfl⟩
  intro h
  have : (1 / 1000000 : ℚ) = 0 := by linarith
  norm_num at this

/-- C2: two calls to `split_data` with the same feature matrix, label
vector, test fraction, validation fraction and seed (and hence identical
input row ordering) return bit-identical train, validation and test
partitions. -/
theorem splitData_deterministic {α β : Type} (X₁ X₂ : List α) (y₁ y₂ : List β)
    (ts₁ ts₂ : ℚ) (vs₁ vs₂ : Option ℚ) (s₁ s₂ : Nat)
    (hX : X₁ = X₂) (hy : y₁ = y₂) (hts : ts₁ = ts₂) (hvs : vs₁ = vs₂) (hs : s₁ = s₂) :
    splitData X₁ y₁ ts₁ vs₁ s₁ = splitData X₂ y₂ ts₂ vs₂ s₂ := by
  subst hX; subst hy; subst hts; subst hvs; subst hs; rfl

/-- Witness for C2 at a concrete split. -/
theorem splitData_deterministic_witness :
    splitData [10, 11, 12, 13, 14] [0, 1, 0, 1, 0] (1 / 5) (some (1 / 4)) 42 =
      splitData [10, 11, 12, 13, 14] [0, 1, 0, 1, 0] (1 / 5) (some (1 / 4)) 42 :=
  splitData_deterministic _ _ _ _ _ _ _ _ _ _ rfl rfl rfl rfl rfl

/-- C8: constructing a `ModelTrainer` with a model-type string outside
{neural_network, xgboost, lightgbm} raises at construction time, and
`scale_features` with a scaler type outside {standard, minmax} raises
whenever a new scaler must be fitted (numeric columns present, no
existing scaler supplied). -/
theorem unsupported_type_raises (t : String) (b : Bool)
    (ht : t ∉ supportedModelTypes)
    (Xtrain : DataFrame) (Xtest Xval : Option DataFrame) (st : String)
    (hst1 : st ≠ "standard") (hst2 : st ≠ "minmax")
    (hnum : (numericColNames Xtrain).isEmpty = false) :
    (∃ e, initModelTrainer t b = .error e)
    ∧ (∃ e, scaleFeatures Xtrain Xtest Xval st none = .error e) := by
  constructor
  · simp only [supportedModelTypes, List.mem_cons, List.not_mem_nil, or_false] at ht
    push_neg at ht
    simp only [initModelTrainer, if_neg ht.1, if_neg ht.2.1, if_neg ht.2.2]
    exact ⟨_, rfl⟩
  · simp only [scaleFeatures, hnum, Bool.false_eq_true, if_false,
      if_neg hst1, if_neg hst2]
    exact ⟨_, rfl⟩

/-- Witness for C8 at concrete inputs. -/
theorem unsupported_type_raises_witness :
    ("svm" ∉ supportedModelTypes)
    ∧ ("robust" ≠ "standard") ∧ ("robust" ≠ "minmax")
    ∧ ((numericColNames [("a", ColData.numeric [some 1])]).isEmpty = false)
    ∧ ((∃ e, initModelTrainer "svm" false = .error e)
        ∧ ∃ e, scaleFeatures [("a", ColData.numeric [some 1])] none none "robust" none
            = .error e) :=
  ⟨by decide, by decide, by decide, by decide,
   unsupported_type_raises "svm" false (by decide) [("a", ColData.numeric [some 1])]
     none none "robust" (by decide) (by decide) (by decide)⟩

/-- C9: a run in which ingestion yields zero records halts with a clear
message after the ingestion stage; no later stage executes and no
artifact of any kind is written (no metadata, no model file, no scaler
file), whatever the training backend would have done. -/
theorem empty_ingestion_halts (records : List RawRecord)
    (trainFn : DataFrame → List ℚ → Nat) (h : records.isEmpty = true) :
    (runPipeline records trainFn).artifactsWritten = []
    ∧ (runPipeline records trainFn).stagesRun = ["ingestion"]
    ∧ (runPipeline records trainFn).message
        = "No data fetched (mock response was empty). Exiting." := by
  cases records with
  | nil => exact ⟨rfl, rfl, rfl⟩
  | cons r rs => simp [List.isEmpty] at h

/-- Witness for C9 on the empty record list. -/
theorem empty_ingestion_halts_witness :
    (([] : List RawRecord).isEmpty = true)
    ∧ (runPipeline [] (fun _ _ => 0)).artifactsWritten = []
    ∧ (runPipeline [] (fun _ _ => 0)).stagesRun = ["ingestion"]
    ∧ (runPipeline [] (fun _ _ => 0)).message
        = "No data fetched (mock response was empty). Exiting." :=
  ⟨rfl, empty_ingestion_halts [] (fun _ _ => 0) rfl⟩

/-- C10: a numeric feature column that is missing in every record is left
entirely missing by the post-assembly imputation (the median of an
all-missing column is itself missing, so `fillna` is a no-op), while a
non-numeric all-missing column is filled with the literal "missing"
placeholder; so the builder's output is not guaranteed to be free of
missing numeric values. -/
theorem all_missing_column_stays_missing (col : List (Option ℚ))
    (scol : List (Option String))
    (h : ∀ x ∈ col, x = none) (hs : ∀ x ∈ scol, x = none) :
    imputeNumericCol col = col
    ∧ imputeStringCol scol = List.replicate scol.length (some "missing") := by
  constructor
  · rw [imputeNumericCol]
    split
    · have hmed : nanMedian col = none := by
        rw [nanMedian]
        have : col.filterMap id = [] := by
          rw [List.filterMap_eq_nil_iff]
          intro a ha
          simp [h a ha]
        rw [this]; rfl
      rw [hmed]
      have : ∀ x ∈ col, (match x with | some v => some v | none => none) = x := by
        intro x hx
        rw [h x hx]
      calc col.map _ = col.map id := List.map_congr_left this
        _ = col := List.map_id col
    · rfl
  · rw [imputeStringCol]
    have hmode : modeStr (scol.filterMap id) = none := by
      have : scol.filterMap id = [] := by
        rw [List.filterMap_eq_nil_iff]
        intro a ha
        simp [hs a ha]
      rw [this]; rfl
    split
    · rw [hmode]
      have : ∀ x ∈ scol,
          (match x with | some v => some v | none => some "missing") = some "missing" := by
        intro x hx
        rw [hs x hx]
      calc scol.map _ = scol.map (fun _ => some "missing") := List.map_congr_left this
        _ = List.replicate scol.length (some "missing") := List.map_const' scol _
    · rename_i hany
      cases scol with
      | nil => rfl
      | cons a as =>
        exfalso
        apply hany
        simp [hs a (by simp)]

/-- Witness for C10 at concrete all-missing columns. -/
theorem all_missing_column_stays_missing_witness :
    ((∀ x ∈ ([none, none] : List (Option ℚ)), x = none)
      ∧ ∀ x ∈ ([none] : List (Option String)), x = none)
    ∧ imputeNumericCol [none, none] = [none, none]
    ∧ imputeStringCol [none] = List.replicate 1 (some "missing") :=
  ⟨⟨by decide, by decide⟩,
   all_missing_column_stays_missing [none, none] [none] (by decide) (by decide)⟩

/-- C6: after assembly, for every column position: a numeric missing cell
becomes the column's median computed over all rows ignoring missing
values, a present cell is unchanged; a non-numeric missing cell becomes
the column's mode, or the literal "missing" placeholder when no mode
exists; in particular for the column `[1, 2, missing, 4]` the filled
value is the median 2 of `[1, 2, 4]`. -/
theorem post_assembly_imputation
    : (∀ (col : List (Option ℚ)) (i : Nat),
        (imputeNumericCol col)[i]? =
          (col[i]?).map (fun c =>
            match c with
            | some v => some v
            | none => nanMedian col))
    ∧ (∀ (scol : List (Option String)) (i : Nat),
        (imputeStringCol scol)[i]? =
          (scol[i]?).map (fun c =>
            match c with
            | some v => some v
            | none => some ((modeStr (scol.filterMap id)).getD "missing")))
    ∧ imputeNumericCol [some 1, some 2, none, some 4] = [some 1, some 2, some 2, some 4]
    ∧ nanMedian [some 1, some 2, none, some 4] = some 2 := by
  refine ⟨?_, ?_, by decide, by decide⟩
  · intro col i
    rw [imputeNumericCol]
    split
    · simp only [List.getElem?_map]
    · rename_i hany
      rw [List.any_eq_true] at hany
      push_neg at hany
      cases hcol : col[i]? with
      | none => rfl
      | some c =>
        have hc : c ∈ col := List.getElem?_mem hcol
        have := hany c hc
        cases c with
        | none => simp at this
        | some v => rfl
  · intro scol i
    rw [imputeStringCol]
    split
    · simp only [List.getElem?_map]
    · rename_i hany
      rw [List.any_eq_true] at hany
      push_neg at hany
      cases hcol : scol[i]? with
      | none => rfl
      | some c =>
        have hc : c ∈ scol := List.getElem?_mem hcol
        have := hany c hc
        cases c with
        | none => simp at this
        | some v => rfl

/-- C4: when `scale_features` fits a new scaler, an entirely missing
numeric training column is filled with zero before fitting and a column
with some but not all values missing is filled with its own median before
fitting; at transform time (train, validation and test alike) every
remaining missing value is filled with zero - never the training median -
before the stored parameters are applied, as exhibited by the fact that
every frame handed to the scaler's transform is the zero-filled one. -/
theorem fit_vs_transform_imputation :
    (∀ col : List (Option ℚ), (∀ x ∈ col, x = none) →
        fitImputeCol col = List.replicate col.length 0)
    ∧ (∀ col : List (Option ℚ), (∃ x ∈ col, x = none) → (∃ x ∈ col, x ≠ none) →
        ∀ i : Nat, (fitImputeCol col)[i]? =
          (col[i]?).map (fun c => c.getD ((nanMedian col).getD 0)))
    ∧ (∀ (col : List (Option ℚ)) (i : Nat),
        (zeroFillCol col)[i]? = (col[i]?).map (fun c => c.getD 0))
    ∧ (∀ Xtrain Xtest Xval : DataFrame,
        (numericColNames Xtrain).isEmpty = false →
        scaleFeatures Xtrain (some Xtest) (some Xval) "standard" none =
          .ok (transformFrame
                (fitStandard ((numericColsOf Xtrain).map (fun c => fitImputeCol c.2)))
                (numericColNames Xtrain) Xtrain,
              some (transformFrame
                (fitStandard ((numericColsOf Xtrain).map (fun c => fitImputeCol c.2)))
                (numericColNames Xtrain) Xtest),
              some (transformFrame
                (fitStandard ((numericColsOf Xtrain).map (fun c => fitImputeCol c.2)))
                (numericColNames Xtrain) Xval),
              some (fitStandard
                ((numericColsOf Xtrain).map (fun c => fitImputeCol c.2))))) := by
  refine ⟨?_, ?_, ?_, ?_⟩
  · intro col h
    rw [fitImputeCol]
    rw [if_pos]
    · exact List.map_const' col 0
    · rw [List.all_eq_true]
      intro x hx
      rw [h x hx]
      rfl
  · intro col hsome hnotall i
    rw [fitImputeCol]
    rw [if_neg, if_pos]
    · simp only [List.getElem?_map]
    · rw [List.any_eq_true]
      obtain ⟨x, hx, hxn⟩ := hsome
      exact ⟨x, hx, by rw [hxn]; rfl⟩
    · rw [List.all_eq_true]
      obtain ⟨x, hx, hxn⟩ := hnotall
      intro hall
      have := hall x hx
      cases x with
      | none => exact hxn rfl
      | some v => simp at this
  · intro col i
    rw [zeroFillCol]
    simp only [List.getElem?_map]
  · intro Xtrain Xtest Xval h
    simp only [scaleFeatures, h, Bool.false_eq_true, if_false, if_pos rfl, if_true]
    rfl

/-- Witness for C4 at concrete columns and frames. -/
theorem fit_vs_transform_imputation_witness :
    ((∀ x ∈ ([none, none] : List (Option ℚ)), x = none)
      ∧ fitImputeCol [none, none] = List.replicate 2 0)
    ∧ ((∃ x ∈ ([some 1, none, some 3] : List (Option ℚ)), x = none)
      ∧ (∃ x ∈ ([some 1, none, some 3] : List (Option ℚ)), x ≠ none)
      ∧ (fitImputeCol [some 1, none, some 3])[1]? =
          (([some 1, none, some 3] : List (Option ℚ))[1]?).map
            (fun c => c.getD ((nanMedian [some 1, none, some 3]).getD 0)))
    ∧ ((numericColNames [("a", ColData.numeric [some 1, none])]).isEmpty = false
      ∧ scaleFeatures [("a", ColData.numeric [some 1, none])] (some []) (some [])
          "standard" none =
        .ok (transformFrame
              (fitStandard ((numericColsOf [("a", ColData.numeric [some 1, none])]).map
                (fun c => fitImputeCol c.2)))
              (numericColNames [("a", ColData.numeric [some 1, none])])
              [("a", ColData.numeric [some 1, none])],
            some (transformFrame
              (fitStandard ((numericColsOf [("a", ColData.numeric [some 1, none])]).map
                (fun c => fitImputeCol c.2)))
              (numericColNames [("a", ColData.numeric [some 1, none])]) []),
            some (transformFrame
              (fitStandard ((numericColsOf [("a", ColData.numeric [some 1, none])]).map
                (fun c => fitImputeCol c.2)))
              (numericColNames [("a", ColData.numeric [some 1, none])]) []),
            some (fitStandard ((numericColsOf [("a", ColData.numeric [some 1, none])]).map
              (fun c => fitImputeCol c.2))))) :=
  ⟨⟨by decide, fit_vs_transform_imputation.1 [none, none] (by decide)⟩,
   ⟨by decide, by decide,
    fit_vs_transform_imputation.2.1 [some 1, none, some 3] (by decide) (by decide) 1⟩,
   ⟨by decide,
    fit_vs_transform_imputation.2.2.2 [("a", ColData.numeric [some 1, none])] [] []
      (by decide)⟩⟩

/-! ### Scaler export fidelity (C1) -/

/-- The numeric training columns after the pre-fit imputation pass, in
column order: exactly the matrix `scaler.fit` receives. -/
def fittedTrainCols (df : DataFrame) : List (List ℚ) :=
  (numericColsOf df).map (fun c => fitImputeCol c.2)

/-- The `mean_` vector the fitted `StandardScaler` stores. -/
def trainMeans (df : DataFrame) : List ℚ :=
  (fittedTrainCols df).map listMean

/-- The `scale_` vector the fitted `StandardScaler` stores. -/
def trainScales (df : DataFrame) : List ℚ :=
  (fittedTrainCols df).map (fun c => handleZerosInScale (sqrtApprox (listVar c)))

theorem fitStandard_fittedTrainCols (df : DataFrame) :
    fitStandard (fittedTrainCols df) = .standard (trainMeans df) (trainScales df) := rfl

/-- The numeric column names are the first components of the numeric
columns (so the name list and the fitted parameter vectors align
positionally). -/
theorem numericColNames_eq (df : DataFrame) :
    numericColNames df = (numericColsOf df).map Prod.fst := by
  induction df with
  | nil => rfl
  | cons c cs ih =>
    obtain ⟨name, cd⟩ := c
    cases cd with
    | numeric v =>
      simp only [numericColNames, numericColsOf, List.filter_cons, List.filterMap_cons,
        isNumericCol, if_true, List.map_cons] at ih ⊢
      rw [← ih]
    | strCol v =>
      simp only [numericColNames, numericColsOf, List.filter_cons, List.filterMap_cons,
        isNumericCol, Bool.false_eq_true, if_false, List.map_cons] at ih ⊢
      rw [← ih]

/-- Selecting rows (as the train/validation/test split does) never changes
which columns are numeric nor their order, so re-deriving the numeric
column names from the full feature frame (as the metadata export does)
yields the same list the scaler was fitted on. -/
theorem numericColNames_selectRows (df : DataFrame) (idx : List Nat) :
    numericColNames (selectRows df idx) = numericColNames df := by
  induction df with
  | nil => rfl
  | cons c cs ih =>
    obtain ⟨name, cd⟩ := c
    cases cd with
    | numeric v =>
      simp only [selectRows, numericColNames, List.map_cons, List.filter_cons,
        isNumericCol, if_true, List.map_cons] at ih ⊢
      rw [← ih]
    | strCol v =>
      simp only [selectRows, numericColNames, List.map_cons, List.filter_cons,
        isNumericCol, Bool.false_eq_true, if_false, List.map_cons] at ih ⊢
      rw [← ih]

/-- In a name-keyed zip with distinct names, looking a name up returns the
positionally matching value. -/
theorem lookup_zip_get (names : List String) (vals : List ℚ) (j : Nat)
    (hnd : names.Nodup) (hj : j < names.length) (hv : j < vals.length) :
    (names.zip vals).lookup (names.get ⟨j, hj⟩) = some (vals.get ⟨j, hv⟩) := by
  induction names generalizing vals j with
  | nil => exact absurd hj (by simp)
  | cons n ns ih =>
    cases vals with
    | nil => exact absurd hv (by simp)
    | cons v vs =>
      rw [List.nodup_cons] at hnd
      cases j with
      | zero => simp [List.lookup]
      | succ j =>
        have hj' : j < ns.length := Nat.lt_of_succ_lt_succ hj
        have hv' : j < vs.length := Nat.lt_of_succ_lt_succ hv
        have hne : (ns.get ⟨j, hj'⟩ == n) = false := by
          rw [beq_eq_false_iff_ne]
          intro hEq
          exact hnd.1 (hEq ▸ List.get_mem ns j hj')
        show ((n, v) :: ns.zip vs).lookup (ns.get ⟨j, hj'⟩) = some (vs.get ⟨j, hv'⟩)
        simp only [List.get_eq_getElem] at hne
        simp only [List.lookup, List.get_eq_getElem, hne]
        have := ih vs j hnd.2 hj' hv'
        simpa using this

/-- C1: the exported metadata maps each scaled numeric feature name to the
fitted mean and scale at that feature's position, and manually recomputing
`(x - mean) / scale` with the looked-up exported parameters yields exactly
the value the scaler's own transform produces for that cell. -/
theorem scaler_param_export_fidelity (Xtrain : DataFrame) (j : Nat) (x : ℚ)
    (hnd : (numericColNames Xtrain).Nodup)
    (hj : j < (numericColNames Xtrain).length) :
    exportScalerMetadata (some (fitStandard (fittedTrainCols Xtrain)))
        (numericColNames Xtrain)
      = some ("standard",
          (numericColNames Xtrain).zip (trainMeans Xtrain),
          (numericColNames Xtrain).zip (trainScales Xtrain))
    ∧ ∃ m s : ℚ,
        ((numericColNames Xtrain).zip (trainMeans Xtrain)).lookup
            ((numericColNames Xtrain).get ⟨j, hj⟩) = some m
        ∧ ((numericColNames Xtrain).zip (trainScales Xtrain)).lookup
            ((numericColNames Xtrain).get ⟨j, hj⟩) = some s
        ∧ (x - m) / s = scalerTransformCell (fitStandard (fittedTrainCols Xtrain)) j x := by
  have hlen : (numericColNames Xtrain).length = (fittedTrainCols Xtrain).length := by
    rw [numericColNames_eq]
    simp [fittedTrainCols]
  have hjm : j < (trainMeans Xtrain).length := by
    rw [trainMeans, List.length_map, ← hlen]; exact hj
  have hjs : j < (trainScales Xtrain).length := by
    rw [trainScales, List.length_map, ← hlen]; exact hj
  refine ⟨rfl, (trainMeans Xtrain).get ⟨j, hjm⟩, (trainScales Xtrain).get ⟨j, hjs⟩,
    lookup_zip_get _ _ j hnd hj hjm, lookup_zip_get _ _ j hnd hj hjs, ?_⟩
  rw [fitStandard_fittedTrainCols]
  show (x - (trainMeans Xtrain).get ⟨j, hjm⟩) / (trainScales Xtrain).get ⟨j, hjs⟩
    = (x - (trainMeans Xtrain).getD j 0) / (trainScales Xtrain).getD j 1
  rw [List.getD_eq_getElem?_getD, List.getD_eq_getElem?_getD,
    List.getElem?_eq_getElem hjm, List.getElem?_eq_getElem hjs]
  rfl

/-- Training frame used by the C1 witness: column "a" is constant (so its
zero variance exercises sklearn's zero-scale replacement), column "b" has
mean 3 and unit variance. -/
def witnessTrainFrame : DataFrame :=
  [("a", ColData.numeric [some 1, some 1]), ("b", ColData.numeric [some 2, some 4])]

/-- Witness for C1 on a concrete training frame, looking up column "b"
(position 1) and recomputing the transform of the held-out value 7. -/
theorem scaler_param_export_fidelity_witness :
    ((numericColNames witnessTrainFrame).Nodup
      ∧ 1 < (numericColNames witnessTrainFrame).length)
    ∧ (exportScalerMetadata (some (fitStandard (fittedTrainCols witnessTrainFrame)))
          (numericColNames witnessTrainFrame)
        = some ("standard",
            (numericColNames witnessTrainFrame).zip (trainMeans witnessTrainFrame),
            (numericColNames witnessTrainFrame).zip (trainScales witnessTrainFrame))
      ∧ ∃ m s : ℚ,
          ((numericColNames witnessTrainFrame).zip (trainMeans witnessTrainFrame)).lookup
              ((numericColNames witnessTrainFrame).get ⟨1, by decide⟩) = some m
          ∧ ((numericColNames witnessTrainFrame).zip (trainScales witnessTrainFrame)).lookup
              ((numericColNames witnessTrainFrame).get ⟨1, by decide⟩) = some s
          ∧ (7 - m) / s
              = scalerTransformCell (fitStandard (fittedTrainCols witnessTrainFrame)) 1 7) :=
  ⟨⟨by decide, by decide⟩,
   scaler_param_export_fidelity witnessTrainFrame 1 7 (by decide) (by decide)⟩

/-! ### Split partition structure (C3) -/

/-- Moving the element at a valid position to the front is a permutation. -/
theorem getD_cons_eraseIdx_perm (l : List α) (d : α) (i : Nat) (hi : i < l.length) :
    (l.getD i d :: l.eraseIdx i).Perm l := by
  have h1 : l.getD i d = l[i] := by
    rw [List.getD_eq_getElem?_getD, List.getElem?_eq_getElem hi]
    rfl
  rw [h1, List.eraseIdx_eq_take_drop_succ]
  have h2 : (l[i] :: (l.take i ++ l.drop (i + 1))).Perm
      (l.take i ++ l[i] :: l.drop (i + 1)) := List.perm_middle.symm
  have h3 : l.take i ++ l[i] :: l.drop (i + 1) = l := by
    rw [List.getElem_cons_drop, List.take_append_drop]
  rw [h3] at h2
  exact h2

/-- The seeded shuffle is a permutation of its input. -/
theorem shuffleSeeded_perm (g : Nat) (l : List α) : (shuffleSeeded g l).Perm l := by
  match l with
  | [] => rw [shuffleSeeded]
  | x :: xs =>
    rw [shuffleSeeded]
    have hi : g % (x :: xs).length < (x :: xs).length := Nat.mod_lt _ (by simp)
    have hrec := shuffleSeeded_perm (lcg g) ((x :: xs).eraseIdx (g % (x :: xs).length))
    exact (hrec.cons _).trans (getD_cons_eraseIdx_perm _ x _ hi)
termination_by l.length
decreasing_by
  have hp : 0 < (x :: xs).length := by simp
  simp only [List.length_eraseIdx_of_lt (Nat.mod_lt _ hp)]
  simp

/-- The test-fraction row count never exceeds the row count when the
fraction is at most one. -/
theorem nTestOf_le (ts : ℚ) (n : Nat) (h : ts ≤ 1) : nTestOf ts n ≤ n := by
  rw [nTestOf]
  have h1 : ts * n ≤ (n : ℚ) := by
    calc ts * n ≤ 1 * n := by
          apply mul_le_mul_of_nonneg_right h
          positivity
      _ = (n : ℚ) := one_mul _
  have h2 : (⌈ts * n⌉ : ℤ) ≤ (n : ℤ) := by
    calc (⌈ts * n⌉ : ℤ) ≤ ⌈(n : ℚ)⌉ := Int.ceil_le_ceil h1
      _ = (n : ℤ) := Int.ceil_natCast n
  calc (⌈ts * n⌉).toNat ≤ ((n : ℤ)).toNat := Int.toNat_le_toNat h2
    _ = n := Int.toNat_natCast n

/-- The function `trainTestSplit` unfolded: the permuted rows are cut at the test
count, test rows first (sklearn takes `permutation[:n_test]` as the test
set and the remainder as the train set). -/
theorem trainTestSplit_eq {α β : Type} (X : List α) (y : List β) (ts : ℚ) (seed : Nat) :
    trainTestSplit X y ts seed =
      (((shuffleSeeded seed (X.zip y)).drop (nTestOf ts X.length)).map Prod.fst,
       ((shuffleSeeded seed (X.zip y)).take (nTestOf ts X.length)).map Prod.fst,
       ((shuffleSeeded seed (X.zip y)).drop (nTestOf ts X.length)).map Prod.snd,
       ((shuffleSeeded seed (X.zip y)).take (nTestOf ts X.length)).map Prod.snd) := rfl

/-- The function `splitData` with a positive validation fraction: the second
`trainTestSplit` is applied to the train/validation pool of the first,
and its test part is the validation set. -/
theorem splitData_some_pos {α β : Type} (X : List α) (y : List β) (ts vs : ℚ)
    (seed : Nat) (h : 0 < vs) :
    splitData X y ts (some vs) seed =
      ((trainTestSplit (trainTestSplit X y ts seed).1
          (trainTestSplit X y ts seed).2.2.1 vs seed).1,
       (trainTestSplit (trainTestSplit X y ts seed).1
          (trainTestSplit X y ts seed).2.2.1 vs seed).2.1,
       (trainTestSplit X y ts seed).2.1,
       (trainTestSplit (trainTestSplit X y ts seed).1
          (trainTestSplit X y ts seed).2.2.1 vs seed).2.2.1,
       (trainTestSplit (trainTestSplit X y ts seed).1
          (trainTestSplit X y ts seed).2.2.1 vs seed).2.2.2,
       (trainTestSplit X y ts seed).2.2.2) := by
  simp only [splitData, if_pos h]

/-- Dropping then taking at the same cut is a permutation of the list. -/
theorem drop_append_take_perm (l : List α) (n : Nat) : (l.drop n ++ l.take n).Perm l := by
  have e : l.take n ++ l.drop n = l := List.take_append_drop n l
  have h : (l.drop n ++ l.take n).Perm (l.take n ++ l.drop n) := List.perm_append_comm
  rw [e] at h
  exact h

/-- C3: with aligned inputs, duplicate-free row identifiers, a test
fraction at most one and a positive validation fraction at most one,
`split_data` returns three partitions that are pairwise disjoint and
exhaust the input rows; the test set is peeled off first at
`ceil(test_size * n)` rows of the total, and the validation set is then
peeled off at `ceil(validation_size * m)` rows of the post-test remainder
`m` (not of the original total). -/
theorem split_disjoint_exhaustive {α β : Type} (X : List α) (y : List β)
    (ts vs : ℚ) (seed : Nat)
    (hlen : y.length = X.length) (hnd : X.Nodup)
    (hts : ts ≤ 1) (hvs0 : 0 < vs) (hvs1 : vs ≤ 1) :
    (((splitData X y ts (some vs) seed).1 ++ (splitData X y ts (some vs) seed).2.1)
        ++ (splitData X y ts (some vs) seed).2.2.1).Perm X
    ∧ List.Disjoint (splitData X y ts (some vs) seed).1 (splitData X y ts (some vs) seed).2.1
    ∧ List.Disjoint (splitData X y ts (some vs) seed).1
        (splitData X y ts (some vs) seed).2.2.1
    ∧ List.Disjoint (splitData X y ts (some vs) seed).2.1
        (splitData X y ts (some vs) seed).2.2.1
    ∧ (splitData X y ts (some vs) seed).2.2.1.length = nTestOf ts X.length
    ∧ (splitData X y ts (some vs) seed).2.1.length
        = nTestOf vs (X.length - (splitData X y ts (some vs) seed).2.2.1.length) := by
  rw [splitData_some_pos X y ts vs seed hvs0, trainTestSplit_eq X y ts seed]
  dsimp only
  rw [trainTestSplit_eq]
  dsimp only
  have hz : ((shuffleSeeded seed (X.zip y)).drop (nTestOf ts X.length))
      = (((shuffleSeeded seed (X.zip y)).drop (nTestOf ts X.length)).map Prod.fst).zip
        (((shuffleSeeded seed (X.zip y)).drop (nTestOf ts X.length)).map Prod.snd) :=
    List.zip_of_prod rfl rfl
  rw [← hz]
  set p1 := shuffleSeeded seed (X.zip y) with hp1def
  set n1 := nTestOf ts X.length with hn1def
  set p2 := shuffleSeeded seed (p1.drop n1) with hp2def
  set n2 := nTestOf vs ((p1.drop n1).map Prod.fst).length with hn2def
  -- first-level facts
  have hp1X : (p1.map Prod.fst).Perm X := by
    have h1 : (p1.map Prod.fst).Perm ((X.zip y).map Prod.fst) :=
      (shuffleSeeded_perm seed (X.zip y)).map Prod.fst
    rw [List.map_fst_zip X y (le_of_eq hlen.symm)] at h1
    exact h1
  have hp1len : p1.length = X.length := by
    rw [hp1def, (shuffleSeeded_perm seed (X.zip y)).length_eq, List.length_zip, hlen,
      min_self]
  have hn1le : n1 ≤ X.length := nTestOf_le ts X.length hts
  have hmfnd : (p1.map Prod.fst).Nodup := hp1X.nodup_iff.mpr hnd
  have htest_eq : (p1.take n1).map Prod.fst = (p1.map Prod.fst).take n1 :=
    List.map_take Prod.fst p1 n1
  have hXtv_eq : (p1.drop n1).map Prod.fst = (p1.map Prod.fst).drop n1 :=
    List.map_drop Prod.fst p1 n1
  have htlen : ((p1.take n1).map Prod.fst).length = n1 := by
    rw [List.length_map, List.length_take, hp1len, Nat.min_eq_left hn1le]
  have hdisjTestTv : List.Disjoint ((p1.take n1).map Prod.fst) ((p1.drop n1).map Prod.fst) := by
    rw [htest_eq, hXtv_eq]
    exact List.disjoint_take_drop hmfnd le_rfl
  -- second-level facts
  have hXtvnd : ((p1.drop n1).map Prod.fst).Nodup := by
    rw [hXtv_eq]
    exact (List.drop_sublist ..).nodup hmfnd
  have hXtvlen : ((p1.drop n1).map Prod.fst).length = X.length - n1 := by
    rw [List.length_map, List.length_drop, hp1len]
  have hp2Xtv : (p2.map Prod.fst).Perm ((p1.drop n1).map Prod.fst) :=
    (shuffleSeeded_perm seed (p1.drop n1)).map Prod.fst
  have hp2len : p2.length = X.length - n1 := by
    rw [hp2def, (shuffleSeeded_perm seed (p1.drop n1)).length_eq, List.length_drop, hp1len]
  have hn2le : n2 ≤ X.length - n1 := by
    rw [hn2def, ← hXtvlen]
    exact nTestOf_le vs _ hvs1
  have hmf2nd : (p2.map Prod.fst).Nodup := hp2Xtv.nodup_iff.mpr hXtvnd
  have hval_eq : (p2.take n2).map Prod.fst = (p2.map Prod.fst).take n2 :=
    List.map_take Prod.fst p2 n2
  have htrain_eq : (p2.drop n2).map Prod.fst = (p2.map Prod.fst).drop n2 :=
    List.map_drop Prod.fst p2 n2
  have hvallen : ((p2.take n2).map Prod.fst).length = n2 := by
    rw [List.length_map, List.length_take, hp2len]
    exact Nat.min_eq_left hn2le
  have hdisjTrVal : List.Disjoint ((p2.drop n2).map Prod.fst) ((p2.take n2).map Prod.fst) := by
    rw [hval_eq, htrain_eq]
    exact List.disjoint_symm (List.disjoint_take_drop hmf2nd le_rfl)
  have hsubTrain : ((p2.drop n2).map Prod.fst) ⊆ ((p1.drop n1).map Prod.fst) := by
    intro a ha
    apply hp2Xtv.subset
    rw [htrain_eq] at ha
    exact List.drop_subset _ _ ha
  have hsubVal : ((p2.take n2).map Prod.fst) ⊆ ((p1.drop n1).map Prod.fst) := by
    intro a ha
    apply hp2Xtv.subset
    rw [hval_eq] at ha
    exact List.take_subset _ _ ha
  have hdisjTvTest : List.Disjoint ((p1.drop n1).map Prod.fst) ((p1.take n1).map Prod.fst) :=
    List.disjoint_symm hdisjTestTv
  -- assemble
  refine ⟨?_, ?_, ?_, ?_, htlen, ?_⟩
  · have h1 : ((p2.drop n2).map Prod.fst ++ (p2.take n2).map Prod.fst).Perm
        (p2.map Prod.fst) := by
      rw [htrain_eq, hval_eq]
      exact drop_append_take_perm _ n2
    have h2 : ((p2.drop n2).map Prod.fst ++ (p2.take n2).map Prod.fst).Perm
        ((p1.drop n1).map Prod.fst) := h1.trans hp2Xtv
    have h3 : (((p2.drop n2).map Prod.fst ++ (p2.take n2).map Prod.fst)
        ++ (p1.take n1).map Prod.fst).Perm
        ((p1.drop n1).map Prod.fst ++ (p1.take n1).map Prod.fst) :=
      h2.append_right _
    have h4 : ((p1.drop n1).map Prod.fst ++ (p1.take n1).map Prod.fst).Perm
        (p1.map Prod.fst) := by
      rw [hXtv_eq, htest_eq]
      exact drop_append_take_perm _ n1
    exact (h3.trans h4).trans hp1X
  · exact hdisjTrVal
  · exact List.disjoint_of_subset_left hsubTrain hdisjTvTest
  · exact List.disjoint_of_subset_left hsubVal hdisjTvTest
  · rw [hvallen, htlen, hn2def, hXtvlen]

/-- Witness for C3 on a concrete five-row split. -/
theorem split_disjoint_exhaustive_witness :
    (([0, 1, 0, 1, 0] : List Nat).length = ([0, 1, 2, 3, 4] : List Nat).length
      ∧ ([0, 1, 2, 3, 4] : List Nat).Nodup
      ∧ (1 / 5 : ℚ) ≤ 1 ∧ (0 : ℚ) < 1 / 4 ∧ (1 / 4 : ℚ) ≤ 1)
    ∧ ((((splitData [0, 1, 2, 3, 4] [0, 1, 0, 1, 0] (1 / 5) (some (1 / 4)) 7).1
          ++ (splitData [0, 1, 2, 3, 4] [0, 1, 0, 1, 0] (1 / 5) (some (1 / 4)) 7).2.1)
          ++ (splitData [0, 1, 2, 3, 4] [0, 1, 0, 1, 0] (1 / 5) (some (1 / 4)) 7).2.2.1).Perm
          [0, 1, 2, 3, 4]
      ∧ List.Disjoint (splitData [0, 1, 2, 3, 4] [0, 1, 0, 1, 0] (1 / 5) (some (1 / 4)) 7).1
          (splitData [0, 1, 2, 3, 4] [0, 1, 0, 1, 0] (1 / 5) (some (1 / 4)) 7).2.1
      ∧ List.Disjoint (splitData [0, 1, 2, 3, 4] [0, 1, 0, 1, 0] (1 / 5) (some (1 / 4)) 7).1
          (splitData [0, 1, 2, 3, 4] [0, 1, 0, 1, 0] (1 / 5) (some (1 / 4)) 7).2.2.1
      ∧ List.Disjoint (splitData [0, 1, 2, 3, 4] [0, 1, 0, 1, 0] (1 / 5) (some (1 / 4)) 7).2.1
          (splitData [0, 1, 2, 3, 4] [0, 1, 0, 1, 0] (1 / 5) (some (1 / 4)) 7).2.2.1
      ∧ (splitData [0, 1, 2, 3, 4] [0, 1, 0, 1, 0] (1 / 5) (some (1 / 4)) 7).2.2.1.length
          = nTestOf (1 / 5) ([0, 1, 2, 3, 4] : List Nat).length
      ∧ (splitData [0, 1, 2, 3, 4] [0, 1, 0, 1, 0] (1 / 5) (some (1 / 4)) 7).2.1.length
          = nTestOf (1 / 4) (([0, 1, 2, 3, 4] : List Nat).length
              - (splitData [0, 1, 2, 3, 4] [0, 1, 0, 1, 0] (1 / 5)
                  (some (1 / 4)) 7).2.2.1.length)) :=
  ⟨⟨rfl, by decide, by norm_num, by norm_num, by norm_num⟩,
   split_disjoint_exhaustive [0, 1, 2, 3, 4] [0, 1, 0, 1, 0] (1 / 5) (1 / 4) 7
     rfl (by decide) (by norm_num) (by norm_num) (by norm_num)⟩
